import Mathlib

/-!
A shallow embedding of the `pro::proxy` type-erasure engine from `src/proxy.h`
(a single-header C++20 library), together with theorems about its constraint
checker, overload resolver, dispatch-table composition, storage adaptors and
the `proxy` container state machine.

Conventions used throughout:
* type-level facts of the C++ source (`sizeof`, `alignof`, the `std::is_*_v`
  traits) are modelled as explicit data on a `Candidate` record describing one
  candidate holder type `P`; pointers are 8 bytes (the LP64 model the numeric
  presets of the source assume);
* the per-(dispatch, overload) invocability checks
  (`std::is_invocable_v<D, ref, Args...>`, src lines 126-128 and 146-148) are
  modelled as opaque boolean functions of the candidate;
* runtime state (`proxy<F>` objects, `deep_ptr` allocations) is modelled by
  explicit state records plus an explicit heap; a C++ exception is modelled by
  an `Option`-valued result; the one nondeterministic event — whether a
  user-type copy construction or an allocation throws — is an explicit boolean
  input `ok` (true means the construction succeeds).
-/

namespace Pro

/-- Constraint levels, `enum class constraint_level { none, nontrivial,
nothrow, trivial }` (src line 18), in declaration order, which is also the
order used by the source's `<`, `>`, `>=` comparisons on levels. -/
inductive constraint_level where
  | none
  | nontrivial
  | nothrow
  | trivial
deriving DecidableEq, BEq, Repr

/-- Numeric value of a `constraint_level`, giving the underlying-integer order
of the C++ `enum class`. -/
def constraint_level.toNat : constraint_level → Nat
  | .none => 0
  | .nontrivial => 1
  | .nothrow => 2
  | .trivial => 3

/-- Comparison `a <= b` on constraint levels (C++ compares the enum values). -/
def cl_le (a b : constraint_level) : Bool := decide (a.toNat ≤ b.toNat)

/-- Comparison `a < b` on constraint levels (C++ compares the enum values). -/
def cl_lt (a b : constraint_level) : Bool := decide (a.toNat < b.toNat)

/-- Record `proxiable_ptr_constraints` (src lines 20-26). -/
structure proxiable_ptr_constraints where
  max_size : Nat
  max_align : Nat
  copyability : constraint_level
  relocatability : constraint_level
  destructibility : constraint_level
deriving DecidableEq, Repr

/-- Size of a pointer on the platform model used here (LP64). -/
def ptr_size : Nat := 8

/-- Preset `relocatable_ptr_constraints` (src lines 27-33):
`sizeof(void*) * 2` bytes, `alignof(void*)` alignment. -/
def relocatable_ptr_constraints : proxiable_ptr_constraints :=
  { max_size := 2 * ptr_size
    max_align := ptr_size
    copyability := .none
    relocatability := .nothrow
    destructibility := .nothrow }

/-- Preset `copyable_ptr_constraints` (src lines 34-40). -/
def copyable_ptr_constraints : proxiable_ptr_constraints :=
  { max_size := 2 * ptr_size
    max_align := ptr_size
    copyability := .nontrivial
    relocatability := .nothrow
    destructibility := .nothrow }

/-- Preset `trivial_ptr_constraints` (src lines 41-47). -/
def trivial_ptr_constraints : proxiable_ptr_constraints :=
  { max_size := ptr_size
    max_align := ptr_size
    copyability := .trivial
    relocatability := .trivial
    destructibility := .trivial }

/-- Static description of one candidate holder type `P`: its size and
alignment and the standard type-trait facts the checker consults, plus
`ptr_ok`, which models `details::ptr_traits<P>::applicable` (src lines
104-117: `P` is a raw pointer or has `operator->`). -/
structure Candidate where
  size : Nat
  align : Nat
  copy_c : Bool
  copy_nt : Bool
  copy_tv : Bool
  move_c : Bool
  move_nt : Bool
  move_tv : Bool
  dtor_c : Bool
  dtor_nt : Bool
  dtor_tv : Bool
  ptr_ok : Bool

/-- Function `details::has_copyability<T>(level)` (src lines 62-73). -/
def has_copyability (P : Candidate) : constraint_level → Bool
  | .trivial => P.copy_tv
  | .nothrow => P.copy_nt
  | .nontrivial => P.copy_c
  | .none => true

/-- Function `details::has_relocatability<T>(level)` (src lines 74-88):
each positive level requires both the move-construction trait and the
destruction trait at that strength. -/
def has_relocatability (P : Candidate) : constraint_level → Bool
  | .trivial => P.move_tv && P.dtor_tv
  | .nothrow => P.move_nt && P.dtor_nt
  | .nontrivial => P.move_c && P.dtor_c
  | .none => true

/-- Function `details::has_destructibility<T>(level)` (src lines 89-98). -/
def has_destructibility (P : Candidate) : constraint_level → Bool
  | .trivial => P.dtor_tv
  | .nothrow => P.dtor_nt
  | .nontrivial => P.dtor_c
  | .none => true

/-- Function `details::requires_lifetime_meta(level)` (src lines 99-101):
`level > none && level < trivial`. -/
def requires_lifetime_meta (l : constraint_level) : Bool :=
  cl_lt .none l && cl_lt l .trivial

/-- Static description of a facade `F`: its `constraints`, its dispatches
(each dispatch being its non-empty list of overloads, where an overload is
represented by its `overload_traits<O>::applicable_ptr<D, P>` invocability
check, an opaque boolean function of the candidate), and its reflection type
(absent models `reflection_type = void`; when present, the function models
`std::is_constructible_v<reflection_type, std::in_place_type_t<P>>`,
src lines 312-314). -/
structure Facade where
  constraints : proxiable_ptr_constraints
  dispatches : List (List (Candidate → Bool))
  reflection : Option (Candidate → Bool)

/-- Implementation of `std::has_single_bit` on `Nat` (used by the
`basic_facade_traits` requires-clause, src line 291). -/
def has_single_bit (n : Nat) : Bool := n != 0 && (n.land (n - 1) == 0)

/-- The conditions the `basic_facade` / `facade` concepts (src lines 281-296,
322-326) place on the facade itself: `max_align` is a power of two, `max_size`
is a multiple of `max_align`, and every dispatch has a non-empty overload list
(src line 164). -/
def facadeOk (F : Facade) : Bool :=
  has_single_bit F.constraints.max_align &&
  (F.constraints.max_size % F.constraints.max_align == 0) &&
  F.dispatches.all (fun d => !d.isEmpty)

/-- Member `facade_traits_impl::applicable_ptr<P>` (src lines 305-314): the
conjunction of the size bound, the alignment bound, the three lifetime
capability checks, invocability of every overload of every dispatch, and
constructibility of the reflection type (when it is not `void`). -/
def applicable_ptr (F : Facade) (P : Candidate) : Bool :=
  decide (P.size ≤ F.constraints.max_size) &&
  decide (P.align ≤ F.constraints.max_align) &&
  has_copyability P F.constraints.copyability &&
  has_relocatability P F.constraints.relocatability &&
  has_destructibility P F.constraints.destructibility &&
  F.dispatches.all (fun d => d.all fun ap => ap P) &&
  (match F.reflection with
   | Option.none => true
   | Option.some r => r P)

/-- Concept `proxiable<P, F>` (src lines 328-330): `facade<F>`, pointer
applicability of `P`, and `applicable_ptr<P>`. -/
def proxiable (P : Candidate) (F : Facade) : Bool :=
  facadeOk F && P.ptr_ok && applicable_ptr F P

/-- Admissibility as the specification states it: all of the size bound,
alignment bound, copy capability meeting `copyability`, move-plus-destroy
capability meeting `relocatability`, destroy capability meeting
`destructibility`, invocability of every supported operation signature on the
dereferenced value, and (when a reflection type is declared) its
constructibility from the candidate's type identity. -/
def admissible_spec (F : Facade) (P : Candidate) : Prop :=
  P.size ≤ F.constraints.max_size ∧
  P.align ≤ F.constraints.max_align ∧
  has_copyability P F.constraints.copyability = true ∧
  has_relocatability P F.constraints.relocatability = true ∧
  has_destructibility P F.constraints.destructibility = true ∧
  (∀ d ∈ F.dispatches, ∀ ap ∈ d, ap P = true) ∧
  (∀ r, F.reflection = Option.some r → r P = true)

/-- C1: for every facade `F` and candidate holder type `P`, the admissibility
check (the `proxiable` concept via `applicable_ptr`) holds if and only if the
size bound, the alignment bound, the three lifetime capability checks, the
invocability of every declared operation signature, and (when declared) the
reflection constructibility all hold; the check is a pure (side-effect-free)
boolean predicate. -/
theorem proxiable_iff_admissible (F : Facade) (P : Candidate)
    (hf : facadeOk F = true) (hp : P.ptr_ok = true) :
    proxiable P F = true ↔ admissible_spec F P := by
  unfold proxiable applicable_ptr admissible_spec
  rw [hf, hp]
  cases hr : F.reflection with
  | none =>
      simp [List.all_eq_true, and_assoc]
  | some r =>
      simp [List.all_eq_true, and_assoc]

/-- Candidate used by concrete examples: a small, fully well-behaved holder
type (all lifetime traits present, one byte, alignment one). -/
def unitCandidate : Candidate :=
  { size := 1, align := 1, copy_c := true, copy_nt := true, copy_tv := true,
    move_c := true, move_nt := true, move_tv := true,
    dtor_c := true, dtor_nt := true, dtor_tv := true, ptr_ok := true }

/-- Facade used by concrete examples: relocation-only constraints, one
dispatch with one overload that is invocable on every pointer-applicable
candidate, no reflection. -/
def demoFacade : Facade :=
  { constraints := relocatable_ptr_constraints
    dispatches := [[fun P => P.ptr_ok]]
    reflection := Option.none }

/-- Witness for C1 at a concrete facade and candidate. -/
theorem proxiable_iff_admissible_witness :
    proxiable unitCandidate demoFacade = true ↔
      admissible_spec demoFacade unitCandidate :=
  proxiable_iff_admissible demoFacade unitCandidate (by rfl) (by rfl)

/-- Presence of the copy entry in the composed dispatch table: the table has a
`copyability_meta` slot exactly when `lifetime_meta` (src lines 249-251) is
not `void`, i.e. when `requires_lifetime_meta(copyability)` holds (src lines
268-269; `facade_meta_reduction`, src lines 253-257, drops `void` members). -/
def copy_entry_present (C : proxiable_ptr_constraints) : Bool :=
  requires_lifetime_meta C.copyability

/-- Presence of the move (relocation) entry in the composed dispatch table
(src lines 270-271). -/
def move_entry_present (C : proxiable_ptr_constraints) : Bool :=
  requires_lifetime_meta C.relocatability

/-- Presence of the destroy entry in the composed dispatch table (src lines
272-273). -/
def destroy_entry_present (C : proxiable_ptr_constraints) : Bool :=
  requires_lifetime_meta C.destructibility

/-- Whether the copy entry, when present, is a `noexcept` function:
`copyability_meta_provider<nothrow>::dispatcher` is `noexcept` (src lines
206-211) and `copyability_meta_provider<nontrivial>::dispatcher` is not (src
lines 200-205); no other specialization exists. -/
def copy_entry_noexcept (C : proxiable_ptr_constraints) : Bool :=
  C.copyability == .nothrow

/-- Counterexample to C6 as stated: for `trivial_ptr_constraints` (a facade
constraint set from the source itself, src lines 41-47) the copyability level
is `trivial`, which is strictly greater than `none`, yet no copy entry is
present in the table — `requires_lifetime_meta(trivial)` is false, so
`lifetime_meta` collapses to `void` and the slot is dropped. Hence "copy
entry present iff copyability > none" fails. -/
theorem copy_entry_absent_for_trivial :
    cl_lt .none trivial_ptr_constraints.copyability = true ∧
    copy_entry_present trivial_ptr_constraints = false := by decide

/-- C6 (amended): for every facade constraint set, each of the three lifetime
entries is present iff its level is `nontrivial` or `nothrow` (so not for
`trivial`, whose lifetime operations need no generated code, and not for
`none`); and when the copy entry is present it is marked non-throwing iff the
copyability level is at least `nothrow`. -/
theorem lifetime_entries_spec :
    ∀ C : proxiable_ptr_constraints,
      (copy_entry_present C = true ↔
        (C.copyability = .nontrivial ∨ C.copyability = .nothrow)) ∧
      (move_entry_present C = true ↔
        (C.relocatability = .nontrivial ∨ C.relocatability = .nothrow)) ∧
      (destroy_entry_present C = true ↔
        (C.destructibility = .nontrivial ∨ C.destructibility = .nothrow)) ∧
      (copy_entry_present C = true →
        (copy_entry_noexcept C = true ↔ cl_le .nothrow C.copyability = true)) := by
  have key : ∀ l : constraint_level,
      requires_lifetime_meta l = true ↔ (l = .nontrivial ∨ l = .nothrow) := by
    intro l; cases l <;> decide
  have key2 : ∀ l : constraint_level, requires_lifetime_meta l = true →
      ((l == .nothrow) = true ↔ cl_le .nothrow l = true) := by
    intro l; cases l <;> decide
  intro C
  exact ⟨key C.copyability, key C.relocatability, key C.destructibility,
    key2 C.copyability⟩

/-- Witness for the implication part of C6's theorem at the concrete
`copyable_ptr_constraints` preset (copyability `nontrivial`): the copy entry
is present and is not marked non-throwing, matching `nothrow ≰ nontrivial`. -/
theorem lifetime_entries_spec_witness :
    copy_entry_noexcept copyable_ptr_constraints = true ↔
      cl_le .nothrow copyable_ptr_constraints.copyability = true :=
  (lifetime_entries_spec copyable_ptr_constraints).2.2.2 (by decide)

/-! ### Overload resolution (C5)

`dispatch_traits_impl` resolves a call-site argument list by ordinary C++
overload resolution over the set of member functions
`overload_traits<O>::resolver::operator()` — one per declared overload `O`,
each taking exactly `O`'s parameter types (src lines 119-124, 166-181:
`matched_overload` is `std::invoke_result_t<overload_resolver, Args...>`).
C++ overload resolution admits implicit conversions and picks the unique best
viable candidate by conversion rank; substitution failure (no viable
candidate, or an ambiguity) removes the `invoke` overload at binding time.
The model below embeds that resolution restricted to a small universe of
scalar argument/parameter types passed by value. -/

/-- Scalar C++ types used to model call signatures and call-site arguments. -/
inductive cpp_type where
  | tShort
  | tInt
  | tLong
  | tFloat
  | tDouble
  | tCharPtr
deriving DecidableEq, BEq, Repr

/-- Whether a `cpp_type` is arithmetic (every arithmetic type converts
implicitly to every other arithmetic type in C++). -/
def is_arith : cpp_type → Bool
  | .tCharPtr => false
  | _ => true

/-- Rank of a standard conversion sequence, as C++ overload resolution orders
them: exact match, then promotion, then conversion. -/
inductive conv_rank where
  | exact
  | promo
  | conv
deriving DecidableEq, BEq, Repr

/-- Numeric value of a conversion rank (smaller is better). -/
def conv_rank.toNat : conv_rank → Nat
  | .exact => 0
  | .promo => 1
  | .conv => 2

/-- Comparison of conversion ranks (smaller is better). -/
def rank_le (a b : conv_rank) : Bool := decide (a.toNat ≤ b.toNat)

/-- The implicit conversion sequence from an argument of type `a` to a
by-value parameter of type `p`, per C++: identity is an exact match,
`short → int` and `float → double` are promotions, any other
arithmetic-to-arithmetic conversion (including narrowing ones) has
conversion rank, and nothing converts between `char*` and arithmetic
types. -/
def std_conv (a p : cpp_type) : Option conv_rank :=
  if a = p then Option.some .exact
  else if a == .tShort && p == .tInt then Option.some .promo
  else if a == .tFloat && p == .tDouble then Option.some .promo
  else if is_arith a && is_arith p then Option.some .conv
  else Option.none

/-- Conversion sequences of a whole argument list against a whole parameter
list; fails if the arities differ or any single conversion is missing. -/
def conv_seqs : List cpp_type → List cpp_type → Option (List conv_rank)
  | [], [] => Option.some []
  | p :: ps, a :: as =>
    match std_conv a p, conv_seqs ps as with
    | Option.some r, Option.some rs => Option.some (r :: rs)
    | _, _ => Option.none
  | _, _ => Option.none

/-- Pointwise comparison of two same-length rank vectors. -/
def ics_le : List conv_rank → List conv_rank → Bool
  | [], [] => true
  | r :: rs, t :: ts => rank_le r t && ics_le rs ts
  | _, _ => false

/-- The better-candidate relation of C++ overload resolution restricted to
rank information: `x` is better than `y` iff no argument's conversion is
worse and at least one is strictly better. -/
def ics_better (x y : List conv_rank) : Bool := ics_le x y && !(ics_le y x)

/-- One declared overload signature `R(Args...)`: its by-value parameter
types. -/
structure overload_sig where
  params : List cpp_type
deriving DecidableEq, BEq, Repr

/-- Member `dispatch_traits_impl::matched_overload<Args...>` (src lines
166-181): C++ overload resolution over the resolver set — keep the viable
candidates (those whose parameter list accepts the argument list by implicit
conversion) and select the one better than every other viable candidate;
when none exists (no viable candidate, or an ambiguity) the call is rejected
at binding time and no overload is matched. -/
def matched_overload (sigs : List overload_sig) (args : List cpp_type) :
    Option overload_sig :=
  let vs := sigs.filterMap fun s => (conv_seqs s.params args).map fun r => (s, r)
  match vs.filter (fun c => vs.all fun c2 => c == c2 || ics_better c.2 c2.2) with
  | [c] => Option.some c.1
  | _ => Option.none

/-- The operation of C5's example: one dispatch declared with the two
signatures `(int)` and `(double)`. -/
def int_double_sigs : List overload_sig := [⟨[.tInt]⟩, ⟨[.tDouble]⟩]

/-- Counterexample to C5 as stated: a call with a `short` argument matches
neither declared signature exactly and would require an implicit widening
conversion, yet it is not rejected — overload resolution binds the `(int)`
signature through an integral promotion. -/
theorem matched_overload_promotion_not_rejected :
    matched_overload int_double_sigs [.tShort] = Option.some ⟨[.tInt]⟩ ∧
    ([cpp_type.tShort] ≠ [cpp_type.tInt] ∧
      [cpp_type.tShort] ≠ [cpp_type.tDouble]) := by decide

/-- C5 (amended): resolution follows C++ overload resolution over the
declared signatures. An exact match always wins: `int` binds `(int)` and
`double` binds `(double)`. A call is rejected at binding time (no dispatch
entry selected, never a call-time error) exactly when no signature is viable
(`char*`) or the viable candidates are ambiguous (`long`, which converts to
`int` and to `double` at equal rank); a call with a unique best viable
candidate binds it even when that needs an implicit conversion: `short`
binds `(int)` and `float` binds `(double)` by promotion. -/
theorem matched_overload_int_double_spec :
    matched_overload int_double_sigs [.tInt] = Option.some ⟨[.tInt]⟩ ∧
    matched_overload int_double_sigs [.tDouble] = Option.some ⟨[.tDouble]⟩ ∧
    matched_overload int_double_sigs [.tCharPtr] = Option.none ∧
    matched_overload int_double_sigs [.tLong] = Option.none ∧
    matched_overload int_double_sigs [.tShort] = Option.some ⟨[.tInt]⟩ ∧
    matched_overload int_double_sigs [.tFloat] = Option.some ⟨[.tDouble]⟩ := by
  decide

/-! ### Runtime model of the `proxy<F>` container

A `proxy<F>` object is a pair of a possibly-null dispatch-table pointer
`meta_` and a byte buffer `ptr_` (src lines 551-552). The buffer's contents
are modelled at the granularity of the holder object they hold: either an
embedded `sbo_ptr<T>` (src lines 557-573), carrying its value directly, or an
indirect `deep_ptr<T>` (src lines 575-590), carrying an owning pointer into an
explicit heap. Values of the erased type `T` are drawn from an abstract type
`V`; moves and copies of well-behaved `T` values transfer, respectively
duplicate, the abstract value. Tables are identified by their address (a
`Nat`); the lifetime entries of the table bound to a state are determined by
the holder stored in the buffer. When `meta_` is null the buffer content is
unspecified garbage; the model keeps the previous holder there and no
observation reads it. -/

/-- Contents of the proxy's byte buffer: an embedded holder carrying a value,
or an indirect holder carrying a possibly-null heap address. -/
inductive Holder (V : Type) where
  | sbo (val : V)
  | deep (ptr : Option Nat)
deriving DecidableEq, Repr

/-- An explicit heap: a bump allocator. `mem` gives the bytes stored at every
address (reading an unallocated address yields garbage, but is defined in the
model) and `live` tells which addresses are currently allocated. -/
structure Heap (V : Type) where
  next : Nat
  mem : Nat → V
  live : Nat → Bool

/-- Allocation (`new T(...)`): returns a fresh address holding `v`. -/
def Heap.alloc {V : Type} (h : Heap V) (v : V) : Nat × Heap V :=
  (h.next,
    { next := h.next + 1
      mem := fun a => if a = h.next then v else h.mem a
      live := fun a => if a = h.next then true else h.live a })

/-- Deallocation (`delete p`): the address stops being live; the model keeps
its last bytes in `mem` (freed memory is garbage, never to be read). -/
def Heap.free {V : Type} (h : Heap V) (a : Nat) : Heap V :=
  { next := h.next, mem := h.mem
    live := fun b => if b = a then false else h.live b }

/-- A heap is well-formed when every live address is below the bump pointer,
so a fresh allocation is distinct from every live block. -/
def Heap.wf {V : Type} (h : Heap V) : Prop :=
  ∀ a, h.live a = true → a < h.next

/-- State of one `proxy<F>` object: the dispatch-table pointer `meta_` (null
means empty, src line 483) and the buffer contents `ptr_`. -/
structure PState (V : Type) where
  meta_ : Option Nat
  ptr_ : Holder V
deriving DecidableEq, Repr

/-- Member `has_value()` (src line 483): `meta_ != nullptr`. -/
def hasValue {V : Type} (s : PState V) : Bool := s.meta_.isSome

/-- The value a proxy state currently holds, observed through the heap:
nothing when empty, the embedded value for an `sbo` holder, the pointed-to
heap cell for an engaged `deep` holder. -/
def heldValue {V : Type} (h : Heap V) (s : PState V) : Option V :=
  match s.meta_ with
  | Option.none => Option.none
  | Option.some _ =>
    match s.ptr_ with
    | .sbo v => Option.some v
    | .deep Option.none => Option.none
    | .deep (Option.some a) => Option.some (h.mem a)

/-- The move (relocation) entry of the table,
`relocatability_meta_provider<C>::dispatcher<P>` (src lines 212-228):
`new(self) P(std::move(*rhs)); rhs->~P();`. First component: the holder
move-constructed into the destination buffer (for `sbo_ptr` the value is
transferred; for `deep_ptr` the pointer is transferred, src line 583).
Second component: the source buffer after the move-construction and in-place
destruction — for `deep_ptr` the moved-from pointer was nulled, then
`delete nullptr` is a no-op; either way the source bytes are garbage from now
on and no observation reads them. -/
def relocate {V : Type} : Holder V → Holder V × Holder V
  | .sbo v => (.sbo v, .sbo v)
  | .deep p => (.deep p, .deep Option.none)

/-- The move constructor `proxy(proxy&& rhs)` (src lines 398-413), which
requires move capability. Result: the newly constructed proxy, the source
after the construction, and whether a table entry was invoked. An empty
source yields an empty proxy and is left untouched. An engaged source under
`trivial` relocatability is transferred by `memcpy` of the whole buffer with
no entry call; otherwise the table's move entry relocates the holder. In both
engaged branches the new proxy takes the source's table pointer and the
source's table pointer is then nulled. The fresh proxy's buffer is
uninitialized before construction; in the empty branch the model leaves the
(unobservable) garbage equal to the source's bytes. -/
def moveCtor {V : Type} (C : proxiable_ptr_constraints) (rhs : PState V) :
    PState V × PState V × Bool :=
  match rhs.meta_ with
  | Option.none => ({ meta_ := Option.none, ptr_ := rhs.ptr_ }, rhs, false)
  | Option.some m =>
    if C.relocatability = .trivial then
      ({ meta_ := Option.some m, ptr_ := rhs.ptr_ },
       { meta_ := Option.none, ptr_ := rhs.ptr_ }, false)
    else
      ({ meta_ := Option.some m, ptr_ := (relocate rhs.ptr_).1 },
       { meta_ := Option.none, ptr_ := (relocate rhs.ptr_).2 }, true)

/-- Helper: the holder move-constructed by the relocation entry carries the
same representation as the source (value transfer / pointer transfer). -/
theorem relocate_fst {V : Type} (x : Holder V) : (relocate x).1 = x := by
  cases x <;> rfl

/-- C2: for every facade with move capability and every proxy `a` engaged
with value `v`, move construction leaves `a` empty (`has_value() == false`)
and yields a proxy engaged with exactly `v` — whether relocatability is
`trivial` (raw byte transfer) or not (move entry); when the relocatability is
`trivial` no table entry is invoked; and move-constructing from an empty
proxy yields an empty proxy. -/
theorem moveCtor_spec {V : Type} (C : proxiable_ptr_constraints)
    (h : Heap V) (rhs : PState V)
    (_hmov : cl_le .nontrivial C.relocatability = true) :
    (∀ v, heldValue h rhs = Option.some v →
      hasValue (moveCtor C rhs).2.1 = false ∧
      heldValue h (moveCtor C rhs).1 = Option.some v ∧
      (moveCtor C rhs).1.meta_ = rhs.meta_) ∧
    (rhs.meta_ = Option.none →
      (moveCtor C rhs).1.meta_ = Option.none ∧ (moveCtor C rhs).2.1 = rhs) ∧
    (C.relocatability = .trivial → (moveCtor C rhs).2.2 = false) := by
  refine ⟨?_, ?_, ?_⟩
  · intro v hv
    cases hm : rhs.meta_ with
    | none => simp [heldValue, hm] at hv
    | some m =>
      by_cases ht : C.relocatability = .trivial
      · simp [moveCtor, hm, ht, hasValue, heldValue] at hv ⊢
        exact hv
      · simp [moveCtor, hm, ht, hasValue, heldValue, relocate_fst] at hv ⊢
        exact hv
  · intro hm
    simp [moveCtor, hm]
  · intro ht
    cases hm : rhs.meta_ with
    | none => simp [moveCtor, hm]
    | some m => simp [moveCtor, hm, ht]

/-- Concrete heap for witnesses: address 0 is live and holds 5; the bump
pointer is 1. -/
def demoHeap : Heap Nat :=
  { next := 1
    mem := fun a => if a = 0 then 5 else 0
    live := fun a => decide (a = 0) }

/-- Concrete engaged proxy state for witnesses: table at address 0, embedded
holder with value 7. -/
def demoSbo7 : PState Nat := { meta_ := Option.some 0, ptr_ := .sbo 7 }

/-- Witness for C2 at `copyable_ptr_constraints` (nothrow relocatability) and
a concrete engaged proxy: the source is emptied and the new proxy holds the
same value. -/
theorem moveCtor_spec_witness :
    hasValue (moveCtor copyable_ptr_constraints demoSbo7).2.1 = false ∧
    heldValue demoHeap (moveCtor copyable_ptr_constraints demoSbo7).1 =
      Option.some 7 ∧
    (moveCtor copyable_ptr_constraints demoSbo7).1.meta_ = demoSbo7.meta_ :=
  (moveCtor_spec copyable_ptr_constraints demoHeap demoSbo7 (by decide)).1 7 rfl

/-- Whether two buffer contents hold the same concrete kind of holder. -/
def sameHolderKind {V : Type} : Holder V → Holder V → Bool
  | .sbo _, .sbo _ => true
  | .deep _, .deep _ => true
  | _, _ => false

/-- The copy constructor of `proxy` for a copyable facade. For
`copyability == trivial` the source declares the constructor `= default`
(src line 396): a bytewise copy of table pointer and buffer with no table
entry invoked. Otherwise (src lines 387-395) an empty source yields an empty
proxy, and an engaged source has its table's copy entry
(`copyability_meta_provider<C>::dispatcher<P>`, src lines 199-211, i.e.
`new(self) P(*rhs)`) construct a holder of the same concrete type into the
new buffer, after which the table pointer is shared. The embedded holder's
copy constructor cannot throw when the facade demanded `nothrow` copyability
(admissibility checked `is_nothrow_copy_constructible`); otherwise the value
copy — and, for the indirect holder, the `new T(*rhs.ptr_)` allocation (src
lines 581-582) — may throw, modelled by `ok = false` yielding `Option.none`.
On success the result carries the new proxy state, the heap after any
allocation, and whether a table entry was invoked. -/
def copyCtor {V : Type} (C : proxiable_ptr_constraints) (h : Heap V)
    (rhs : PState V) (ok : Bool) : Option (PState V × Heap V × Bool) :=
  if C.copyability = .trivial then
    Option.some ({ meta_ := rhs.meta_, ptr_ := rhs.ptr_ }, h, false)
  else
    match rhs.meta_ with
    | Option.none =>
      Option.some ({ meta_ := Option.none, ptr_ := rhs.ptr_ }, h, false)
    | Option.some m =>
      match rhs.ptr_ with
      | .sbo v =>
        if C.copyability = .nothrow then
          Option.some ({ meta_ := Option.some m, ptr_ := .sbo v }, h, true)
        else if ok then
          Option.some ({ meta_ := Option.some m, ptr_ := .sbo v }, h, true)
        else Option.none
      | .deep Option.none =>
        Option.some ({ meta_ := Option.some m, ptr_ := .deep Option.none }, h,
          true)
      | .deep (Option.some a) =>
        if ok then
          Option.some
            ({ meta_ := Option.some m,
               ptr_ := .deep (Option.some (h.alloc (h.mem a)).1) },
             (h.alloc (h.mem a)).2, true)
        else Option.none

/-- Counterexample to C3 as stated: `trivial_ptr_constraints` is a copyable
facade constraint set (its copyability, `trivial`, is greater than `none`),
and copy-constructing from the engaged proxy `demoSbo7` succeeds — but no
table copy entry is used (third component `false`): the constructor is the
defaulted bytewise one, and indeed the composed table for this facade
contains no copy entry at all. -/
theorem copyCtor_trivial_no_entry :
    cl_lt .none trivial_ptr_constraints.copyability = true ∧
    hasValue demoSbo7 = true ∧
    copyCtor trivial_ptr_constraints demoHeap demoSbo7 true =
      Option.some ({ meta_ := Option.some 0, ptr_ := Holder.sbo 7 }, demoHeap,
        false) ∧
    copy_entry_present trivial_ptr_constraints = false := by
  refine ⟨by decide, by decide, ?_, by decide⟩
  rfl

/-- Helper: everything a successful copy construction guarantees — shared
table pointer, same observed value, same holder kind, the copy entry used
exactly when copyability is not trivial, and emptiness preserved. -/
theorem copyCtor_props {V : Type} (C : proxiable_ptr_constraints) (h : Heap V)
    (rhs : PState V) (ok : Bool) :
    ∀ b h2 used, copyCtor C h rhs ok = Option.some (b, h2, used) →
      b.meta_ = rhs.meta_ ∧
      heldValue h2 b = heldValue h rhs ∧
      sameHolderKind b.ptr_ rhs.ptr_ = true ∧
      (rhs.meta_.isSome = true → used = decide (C.copyability ≠ .trivial)) ∧
      (rhs.meta_ = Option.none → b.meta_ = Option.none) := by
  intro b h2 used heq
  by_cases ht : C.copyability = .trivial
  · simp [copyCtor, ht] at heq
    obtain ⟨hb, hh, hu⟩ := heq
    subst hh
    subst hu
    cases hb
    refine ⟨rfl, rfl, ?_, ?_, fun hx => hx⟩
    · cases rhs.ptr_ <;> rfl
    · simp [ht]
  · cases hm : rhs.meta_ with
    | none =>
      simp [copyCtor, ht, hm] at heq
      obtain ⟨hb, hh, hu⟩ := heq
      subst hh
      cases hb
      simp [heldValue, hm]
      cases hp : rhs.ptr_ <;> simp [sameHolderKind]
    | some m =>
      cases hp : rhs.ptr_ with
      | sbo v =>
        by_cases hn : C.copyability = .nothrow
        · simp [copyCtor, ht, hm, hp, hn] at heq
          obtain ⟨hb, hh, hu⟩ := heq
          subst hh
          cases hb
          simp [heldValue, hm, hp, sameHolderKind, hu, ht]
        · cases ok with
          | false => simp [copyCtor, ht, hm, hp, hn] at heq
          | true =>
            simp [copyCtor, ht, hm, hp, hn] at heq
            obtain ⟨hb, hh, hu⟩ := heq
            subst hh
            cases hb
            simp [heldValue, hm, hp, sameHolderKind, hu, ht]
      | deep p =>
        cases p with
        | none =>
          simp [copyCtor, ht, hm, hp] at heq
          obtain ⟨hb, hh, hu⟩ := heq
          subst hh
          cases hb
          simp [heldValue, hm, hp, sameHolderKind, hu, ht]
        | some a =>
          cases ok with
          | false => simp [copyCtor, ht, hm, hp] at heq
          | true =>
            simp [copyCtor, ht, hm, hp] at heq
            obtain ⟨hb, hh, hu⟩ := heq
            subst hh
            cases hb
            simp [heldValue, hm, hp, sameHolderKind, hu, ht, Heap.alloc]

/-- C3 (amended): for every copyable facade, copy construction from an empty
proxy yields an empty proxy, and from an engaged proxy yields a proxy whose
dispatch-table pointer is the very same table (pointer-equal `meta_`), whose
buffer holds a holder of the same concrete kind, and which observes the same
value; when the copyability is not `trivial` the construction goes through
the source table's copy entry, while for `trivial` copyability it is the
defaulted bytewise copy and no entry is invoked (none exists). -/
theorem copyCtor_spec {V : Type} (C : proxiable_ptr_constraints) (h : Heap V)
    (rhs : PState V) (ok : Bool)
    (_hcopy : cl_le .nontrivial C.copyability = true) :
    ∀ b h2 used, copyCtor C h rhs ok = Option.some (b, h2, used) →
      b.meta_ = rhs.meta_ ∧
      heldValue h2 b = heldValue h rhs ∧
      sameHolderKind b.ptr_ rhs.ptr_ = true ∧
      (rhs.meta_.isSome = true → used = decide (C.copyability ≠ .trivial)) ∧
      (rhs.meta_ = Option.none → b.meta_ = Option.none) :=
  copyCtor_props C h rhs ok

/-- Witness for C3's amended theorem at `copyable_ptr_constraints` and the
concrete engaged proxy `demoSbo7`: the copy shares the table pointer and
observes the same value. -/
theorem copyCtor_spec_witness :
    ({ meta_ := Option.some 0, ptr_ := Holder.sbo 7 } : PState Nat).meta_ =
      demoSbo7.meta_ ∧
    heldValue demoHeap ({ meta_ := Option.some 0, ptr_ := Holder.sbo 7 } :
      PState Nat) = heldValue demoHeap demoSbo7 :=
  ⟨(copyCtor_spec copyable_ptr_constraints demoHeap demoSbo7 true (by decide)
      ({ meta_ := Option.some 0, ptr_ := Holder.sbo 7 }) demoHeap true rfl).1,
   (copyCtor_spec copyable_ptr_constraints demoHeap demoSbo7 true (by decide)
      ({ meta_ := Option.some 0, ptr_ := Holder.sbo 7 }) demoHeap true
      rfl).2.1⟩

/-- Predicate `HasTrivialCopyConstructor` (src lines 349-350). -/
def HasTrivialCopyConstructor (C : proxiable_ptr_constraints) : Bool :=
  decide (C.copyability = .trivial)

/-- Predicate `HasNothrowCopyConstructor` (src lines 351-352). -/
def HasNothrowCopyConstructor (C : proxiable_ptr_constraints) : Bool :=
  cl_le .nothrow C.copyability

/-- Predicate `HasCopyConstructor` (src lines 353-354). -/
def HasCopyConstructor (C : proxiable_ptr_constraints) : Bool :=
  cl_le .nontrivial C.copyability

/-- Predicate `HasNothrowMoveConstructor` (src lines 355-356). -/
def HasNothrowMoveConstructor (C : proxiable_ptr_constraints) : Bool :=
  cl_le .nothrow C.relocatability

/-- Predicate `HasMoveConstructor` (src lines 357-358). -/
def HasMoveConstructor (C : proxiable_ptr_constraints) : Bool :=
  cl_le .nontrivial C.relocatability

/-- Predicate `HasTrivialDestructor` (src lines 359-360). -/
def HasTrivialDestructor (C : proxiable_ptr_constraints) : Bool :=
  decide (C.destructibility = .trivial)

/-- Predicate `HasNothrowDestructor` (src lines 361-362). -/
def HasNothrowDestructor (C : proxiable_ptr_constraints) : Bool :=
  cl_le .nothrow C.destructibility

/-- Predicate `HasDestructor` (src lines 363-364). -/
def HasDestructor (C : proxiable_ptr_constraints) : Bool :=
  cl_le .nontrivial C.destructibility

/-- Predicate `HasTrivialCopyAssignment` (src lines 371-372). -/
def HasTrivialCopyAssignment (C : proxiable_ptr_constraints) : Bool :=
  HasTrivialCopyConstructor C && HasTrivialDestructor C

/-- Predicate `HasNothrowCopyAssignment` (src lines 373-374). -/
def HasNothrowCopyAssignment (C : proxiable_ptr_constraints) : Bool :=
  HasNothrowCopyConstructor C && HasNothrowDestructor C

/-- Predicate `HasCopyAssignment` (src lines 375-376). -/
def HasCopyAssignment (C : proxiable_ptr_constraints) : Bool :=
  HasNothrowCopyAssignment C ||
  (HasCopyConstructor C && HasMoveConstructor C && HasDestructor C)

/-- Predicate `HasNothrowMoveAssignment` (src lines 377-378). -/
def HasNothrowMoveAssignment (C : proxiable_ptr_constraints) : Bool :=
  HasNothrowMoveConstructor C && HasNothrowDestructor C

/-- Predicate `HasMoveAssignment` (src line 379). -/
def HasMoveAssignment (C : proxiable_ptr_constraints) : Bool :=
  HasMoveConstructor C && HasDestructor C

/-- Well-formedness of a proxy state with respect to its facade constraints:
an engaged state whose buffer holds the indirect holder can only exist under
a facade whose admissibility `deep_ptr<T>` passed, and `deep_ptr` is never
nothrow- or trivially copy-constructible (its copy allocates, src lines
581-582), never trivially relocatable and never trivially destructible (its
destructor is non-trivial, src line 584). Every state the engine actually
constructs satisfies this. -/
def wfState {V : Type} (C : proxiable_ptr_constraints) (s : PState V) : Bool :=
  match s.meta_, s.ptr_ with
  | Option.some _, .deep _ =>
    decide (C.copyability ≠ .nothrow) && decide (C.copyability ≠ .trivial) &&
    decide (C.relocatability ≠ .trivial) &&
    decide (C.destructibility ≠ .trivial)
  | _, _ => true

/-- The destructor `~proxy()` (src lines 474-481): for trivial
destructibility it is defaulted and no entry runs; otherwise, when engaged,
the table's destroy entry
(`destructibility_meta_provider<C>::dispatcher<P>`, src lines 229-240) runs
the holder's destructor — a no-op on the heap for the embedded holder, and
`delete ptr_` for the indirect holder (src line 584). -/
def proxyDtor {V : Type} (C : proxiable_ptr_constraints) (h : Heap V)
    (s : PState V) : Heap V :=
  if HasTrivialDestructor C then h
  else
    match s.meta_ with
    | Option.none => h
    | Option.some _ =>
      match s.ptr_ with
      | .sbo _ => h
      | .deep Option.none => h
      | .deep (Option.some a) => h.free a

/-- The move assignment `operator=(proxy&& rhs)` for distinct objects (src
lines 449-460, the `this != &rhs` branch): destroy the target's current
content (`~proxy()` when the move assignment is nothrow, `reset()` — the same
destruction followed by nulling `meta_` — otherwise; the subsequent
reconstruction overwrites the whole object either way), then move-construct
from `rhs` into the target. Result: the new target state, the source state
after the move, and the heap after destroying the old target content. -/
def moveAssign {V : Type} (C : proxiable_ptr_constraints) (h : Heap V)
    (tgt rhs : PState V) : PState V × PState V × Heap V :=
  ((moveCtor C rhs).1, (moveCtor C rhs).2.1, proxyDtor C h tgt)

/-- Outcome of an assignment expression on the target object: normal
completion, an exception propagated out with the target left in the recorded
state, or `invalid` — a path that is unreachable for well-formed states (the
copy entry throwing after the target has already been destroyed, or a deleted
overload being called). -/
inductive ARes (V : Type) where
  | ok (tgt : PState V) (heap : Heap V)
  | threw (tgt : PState V) (heap : Heap V)
  | invalid

/-- The copy assignment `operator=(const proxy& rhs)` for distinct objects.
Overload selection per the requires-clauses (src lines 435-448): for
`HasTrivialCopyAssignment` the defaulted bytewise assignment; for
`HasNothrowCopyAssignment` (and not trivial) the in-place path
`this->~proxy(); new(this) proxy(rhs);` which destroys the target first —
sound only because the copy cannot throw there; otherwise, when
`HasCopyAssignment`, the temporary path `return *this = proxy{rhs};` which
fully materializes the replacement as a temporary before the target is
touched, then move-assigns it into the target and destroys the moved-from
temporary. If constructing the temporary throws, the exception propagates
with the target untouched. -/
def copyAssign {V : Type} (C : proxiable_ptr_constraints) (h : Heap V)
    (tgt rhs : PState V) (ok : Bool) : ARes V :=
  if HasTrivialCopyAssignment C then
    ARes.ok { meta_ := rhs.meta_, ptr_ := rhs.ptr_ } h
  else if HasNothrowCopyAssignment C then
    match copyCtor C (proxyDtor C h tgt) rhs ok with
    | Option.some (b, h2, _) => ARes.ok b h2
    | Option.none => ARes.invalid
  else if HasCopyAssignment C then
    match copyCtor C h rhs ok with
    | Option.none => ARes.threw tgt h
    | Option.some (temp, h1, _) =>
      ARes.ok (moveAssign C h1 tgt temp).1
        (proxyDtor C (moveAssign C h1 tgt temp).2.2
          (moveAssign C h1 tgt temp).2.1)
  else ARes.invalid

/-- Helper: the copy constructor model fails only when the nondeterministic
throw event `ok = false` was chosen. -/
theorem copyCtor_none_ok {V : Type} (C : proxiable_ptr_constraints)
    (h : Heap V) (rhs : PState V) (ok : Bool)
    (hc : copyCtor C h rhs ok = Option.none) : ok = false := by
  cases ok with
  | false => rfl
  | true =>
    exfalso
    by_cases ht : C.copyability = .trivial
    · simp [copyCtor, ht] at hc
    · cases hm : rhs.meta_ with
      | none => simp [copyCtor, ht, hm] at hc
      | some m =>
        cases hp : rhs.ptr_ with
        | sbo v =>
          by_cases hn : C.copyability = .nothrow <;>
            simp [copyCtor, ht, hm, hp, hn] at hc
        | deep p => cases p <;> simp [copyCtor, ht, hm, hp] at hc

/-- Helper: under a facade demanding at-least-nothrow copyability, copying a
well-formed state cannot fail — the embedded holder was checked
nothrow-copy-constructible and the indirect holder is inadmissible. -/
theorem copyCtor_nothrow_some {V : Type} (C : proxiable_ptr_constraints)
    (h : Heap V) (rhs : PState V) (ok : Bool)
    (hn : cl_le .nothrow C.copyability = true) (hw : wfState C rhs = true) :
    copyCtor C h rhs ok ≠ Option.none := by
  rcases hcp : C.copyability with _ | _ | _ | _
  · rw [hcp] at hn; exact absurd hn (by decide)
  · rw [hcp] at hn; exact absurd hn (by decide)
  · cases hm : rhs.meta_ with
    | none => simp [copyCtor, hcp, hm]
    | some m =>
      cases hp : rhs.ptr_ with
      | sbo v => simp [copyCtor, hcp, hm, hp]
      | deep p =>
        exfalso
        simp [wfState, hm, hp, hcp] at hw
  · simp [copyCtor, hcp]

/-- C4: copy assignment has the strong exception guarantee for copy-side
failures. For every target `tgt` and well-formed source `rhs`, the assignment
never reaches an invalid state (in particular the destroy-first in-place path
is only selected when the copy provably cannot throw), and whenever it throws
the exception came from the temporary-first path with the replacement's copy
construction (or the indirect holder's allocation) failing, and the target
and the heap are left exactly as they were. -/
theorem copyAssign_strong_guarantee {V : Type} (C : proxiable_ptr_constraints)
    (h : Heap V) (tgt rhs : PState V) (ok : Bool)
    (hca : HasCopyAssignment C = true) (hw : wfState C rhs = true) :
    copyAssign C h tgt rhs ok ≠ ARes.invalid ∧
    ∀ t2 h2, copyAssign C h tgt rhs ok = ARes.threw t2 h2 →
      t2 = tgt ∧ h2 = h ∧ ok = false ∧ HasNothrowCopyAssignment C = false := by
  by_cases h1 : HasTrivialCopyAssignment C = true
  · constructor
    · simp [copyAssign, h1]
    · intro t2 h2 hth; simp [copyAssign, h1] at hth
  · by_cases h2 : HasNothrowCopyAssignment C = true
    · have hn : cl_le .nothrow C.copyability = true := by
        have := h2
        simp [HasNothrowCopyAssignment, HasNothrowCopyConstructor,
          Bool.and_eq_true] at this
        exact this.1
      have hsome := copyCtor_nothrow_some C (proxyDtor C h tgt) rhs ok hn hw
      rcases hcc : copyCtor C (proxyDtor C h tgt) rhs ok with _ | ⟨b, hb, u⟩
      · exact absurd hcc hsome
      · constructor
        · simp [copyAssign, h1, h2, hcc]
        · intro t2 h3 hth; simp [copyAssign, h1, h2, hcc] at hth
    · constructor
      · rcases hcc : copyCtor C h rhs ok with _ | ⟨temp, hh1, u⟩ <;>
          simp [copyAssign, h1, h2, hca, hcc]
      · intro t2 h3 hth
        rcases hcc : copyCtor C h rhs ok with _ | ⟨temp, hh1, u⟩
        · simp [copyAssign, h1, h2, hca, hcc] at hth
          exact ⟨hth.1.symm, hth.2.symm, copyCtor_none_ok C h rhs ok hcc,
            Bool.not_eq_true _ ▸ h2⟩
        · simp [copyAssign, h1, h2, hca, hcc] at hth

/-- Second engaged proxy state for witnesses: table at address 0, embedded
holder with value 9. -/
def demoSbo9 : PState Nat := { meta_ := Option.some 0, ptr_ := .sbo 9 }

/-- Facade constraints with every level `nontrivial`: copy assignment exists
only through the temporary-first path. -/
def nontrivialConstraints : proxiable_ptr_constraints :=
  { max_size := 2 * ptr_size
    max_align := ptr_size
    copyability := .nontrivial
    relocatability := .nontrivial
    destructibility := .nontrivial }

/-- Witness for C4 at all-nontrivial constraints, concrete target and source,
with the copy chosen to throw (`ok = false`): the assignment does not reach
an invalid state (and, by the theorem, the throw leaves the target
untouched). -/
theorem copyAssign_strong_guarantee_witness :
    copyAssign nontrivialConstraints demoHeap demoSbo7 demoSbo9 false ≠
      ARes.invalid :=
  (copyAssign_strong_guarantee nontrivialConstraints demoHeap demoSbo7
    demoSbo9 false (by decide) (by decide)).1

/-- Helper: the proxy produced by move construction carries exactly the
source's table pointer and buffer representation — for the `memcpy` branch by
definition, for the entry branch because relocation transfers the holder's
representation. By structure eta it is the source state itself. -/
theorem moveCtor_fst {V : Type} (C : proxiable_ptr_constraints)
    (x : PState V) : (moveCtor C x).1 = x := by
  obtain ⟨mm, pp⟩ := x
  cases mm with
  | none => rfl
  | some m =>
    by_cases ht : C.relocatability = .trivial
    · simp [moveCtor, ht]
    · simp [moveCtor, ht, relocate_fst]

/-- Helper: after move construction the source is empty — either its table
pointer is nulled (engaged branches) or it was empty already. -/
theorem moveCtor_snd_meta {V : Type} (C : proxiable_ptr_constraints)
    (x : PState V) : (moveCtor C x).2.1.meta_ = Option.none := by
  cases hm : x.meta_ with
  | none => simp [moveCtor, hm]
  | some m =>
    by_cases ht : C.relocatability = .trivial <;> simp [moveCtor, hm, ht]

/-- Helper: an empty state observes no value. -/
theorem heldValue_empty {V : Type} (h : Heap V) (s : PState V)
    (hm : s.meta_ = Option.none) : heldValue h s = Option.none := by
  simp [heldValue, hm]

/-- Helper: destroying an empty proxy does not touch the heap. -/
theorem proxyDtor_empty {V : Type} (C : proxiable_ptr_constraints)
    (h : Heap V) (s : PState V) (hm : s.meta_ = Option.none) :
    proxyDtor C h s = h := by
  by_cases ht : HasTrivialDestructor C = true <;> simp [proxyDtor, ht, hm]

/-- Helper: destruction never rewrites heap contents, it only marks a block
free. -/
theorem proxyDtor_mem {V : Type} (C : proxiable_ptr_constraints) (h : Heap V)
    (s : PState V) : (proxyDtor C h s).mem = h.mem := by
  by_cases ht : HasTrivialDestructor C = true
  · simp [proxyDtor, ht]
  · cases hm : s.meta_ with
    | none => simp [proxyDtor, ht, hm]
    | some m =>
      cases hp : s.ptr_ with
      | sbo v => simp [proxyDtor, ht, hm, hp]
      | deep p => cases p <;> simp [proxyDtor, ht, hm, hp, Heap.free]

/-- Helper: the observed value depends on the heap only through its
contents. -/
theorem heldValue_mem_congr {V : Type} (h1 h2 : Heap V) (s : PState V)
    (hmem : h2.mem = h1.mem) : heldValue h2 s = heldValue h1 s := by
  unfold heldValue
  cases s.meta_ with
  | none => rfl
  | some m =>
    cases s.ptr_ with
    | sbo v => rfl
    | deep p =>
      cases p with
      | none => rfl
      | some a => simp [hmem]

/-- Member `proxy::swap` for a facade whose relocatability is not `trivial`
(src lines 494-506): if both sides are engaged, relocate `*this` into a
temporary, move-construct `rhs` into `*this`, then the temporary into `rhs`
(at most one temporary, never double ownership); if exactly one side is
engaged, move-construct it into the empty side (leaving the source empty);
if both are empty, do nothing. The `trivial`-relocatability branch of the
source (src lines 491-493) is not modelled: it reads `rhs.ptr`, a member
that does not exist (the member is `ptr_`), so it does not compile — see the
C7 analysis. Result: the states of `(*this, rhs)` after the call. -/
def swapProxy {V : Type} (C : proxiable_ptr_constraints) (a b : PState V) :
    PState V × PState V :=
  match a.meta_ with
  | Option.some _ =>
    match b.meta_ with
    | Option.some _ =>
      ((moveCtor C b).1, (moveCtor C (moveCtor C a).1).1)
    | Option.none => ((moveCtor C a).2.1, (moveCtor C a).1)
  | Option.none =>
    match b.meta_ with
    | Option.some _ => ((moveCtor C b).1, (moveCtor C b).2.1)
    | Option.none => (a, b)

/-- Helper: one swap exchanges the two containers' observable contents
(table pointer and held value), for any combination of engaged and empty
operands. -/
theorem swap_exchange {V : Type} (C : proxiable_ptr_constraints) (h : Heap V)
    (a b : PState V) :
    (swapProxy C a b).1.meta_ = b.meta_ ∧
    heldValue h (swapProxy C a b).1 = heldValue h b ∧
    (swapProxy C a b).2.meta_ = a.meta_ ∧
    heldValue h (swapProxy C a b).2 = heldValue h a := by
  cases ha : a.meta_ with
  | none =>
    cases hb : b.meta_ with
    | none =>
      have h1 : swapProxy C a b = (a, b) := by simp [swapProxy, ha, hb]
      rw [h1]
      exact ⟨ha,
        (heldValue_empty h a ha).trans (heldValue_empty h b hb).symm,
        hb,
        (heldValue_empty h b hb).trans (heldValue_empty h a ha).symm⟩
    | some mb =>
      have h1 : swapProxy C a b = ((moveCtor C b).1, (moveCtor C b).2.1) := by
        simp [swapProxy, ha, hb]
      rw [h1, moveCtor_fst]
      exact ⟨hb, rfl, moveCtor_snd_meta C b,
        (heldValue_empty h _ (moveCtor_snd_meta C b)).trans
          (heldValue_empty h a ha).symm⟩
  | some ma =>
    cases hb : b.meta_ with
    | none =>
      have h1 : swapProxy C a b = ((moveCtor C a).2.1, (moveCtor C a).1) := by
        simp [swapProxy, ha, hb]
      rw [h1, moveCtor_fst]
      exact ⟨moveCtor_snd_meta C a,
        (heldValue_empty h _ (moveCtor_snd_meta C a)).trans
          (heldValue_empty h b hb).symm,
        ha, rfl⟩
    | some mb =>
      have h1 : swapProxy C a b =
          ((moveCtor C b).1, (moveCtor C (moveCtor C a).1).1) := by
        simp [swapProxy, ha, hb]
      rw [h1, moveCtor_fst, moveCtor_fst, moveCtor_fst]
      exact ⟨hb, rfl, ha, rfl⟩

/-- C7: for a movable facade (with non-trivial relocatability, the only case
in which `proxy::swap` compiles), a single `swap(a, b)` exchanges the two
containers' (table pointer, held value) pairs, and running `swap` twice
restores both containers' original engagement states and held values — swap
is self-inverse. -/
theorem swapProxy_self_inverse {V : Type} (C : proxiable_ptr_constraints)
    (h : Heap V) (a b : PState V)
    (_hmov : HasMoveConstructor C = true)
    (_hnt : C.relocatability ≠ .trivial) :
    ((swapProxy C a b).1.meta_ = b.meta_ ∧
     heldValue h (swapProxy C a b).1 = heldValue h b ∧
     (swapProxy C a b).2.meta_ = a.meta_ ∧
     heldValue h (swapProxy C a b).2 = heldValue h a) ∧
    ((swapProxy C (swapProxy C a b).1 (swapProxy C a b).2).1.meta_ =
        a.meta_ ∧
     heldValue h (swapProxy C (swapProxy C a b).1 (swapProxy C a b).2).1 =
        heldValue h a ∧
     (swapProxy C (swapProxy C a b).1 (swapProxy C a b).2).2.meta_ =
        b.meta_ ∧
     heldValue h (swapProxy C (swapProxy C a b).1 (swapProxy C a b).2).2 =
        heldValue h b) := by
  have e1 := swap_exchange C h a b
  have e2 := swap_exchange C h (swapProxy C a b).1 (swapProxy C a b).2
  exact ⟨e1,
    e2.1.trans e1.2.2.1, e2.2.1.trans e1.2.2.2,
    e2.2.2.1.trans e1.1, e2.2.2.2.trans e1.2.1⟩

/-- Witness for C7 at a concrete movable facade and two engaged proxies:
one swap moves the second proxy's observables into the first slot. -/
theorem swapProxy_self_inverse_witness :
    (swapProxy copyable_ptr_constraints demoSbo7 demoSbo9).1.meta_ =
      demoSbo9.meta_ ∧
    heldValue demoHeap
        (swapProxy copyable_ptr_constraints demoSbo7 demoSbo9).1 =
      heldValue demoHeap demoSbo9 :=
  ⟨(swapProxy_self_inverse copyable_ptr_constraints demoHeap demoSbo7
      demoSbo9 (by decide) (by decide)).1.1,
   (swapProxy_self_inverse copyable_ptr_constraints demoHeap demoSbo7
      demoSbo9 (by decide) (by decide)).1.2.1⟩

/-- The copy assignment `operator=(const proxy& rhs)` evaluated with
`&rhs == this` (self-assignment). Per the overload selection of src lines
435-448: the defaulted bytewise assignment for `HasTrivialCopyAssignment`
copies the object onto itself; the in-place nothrow path explicitly checks
`this != &rhs` (src line 440) and does nothing; the temporary path
`*this = proxy{rhs}` copies `*this` into a temporary (which may throw,
leaving `*this` untouched) and then move-assigns the temporary back over
`*this` — the `this != &rhs` check inside move assignment (src line 451)
passes because the temporary is a distinct object — after which the
moved-from temporary is destroyed. -/
def copyAssignSelf {V : Type} (C : proxiable_ptr_constraints) (h : Heap V)
    (a : PState V) (ok : Bool) : ARes V :=
  if HasTrivialCopyAssignment C then
    ARes.ok { meta_ := a.meta_, ptr_ := a.ptr_ } h
  else if HasNothrowCopyAssignment C then ARes.ok a h
  else if HasCopyAssignment C then
    match copyCtor C h a ok with
    | Option.none => ARes.threw a h
    | Option.some (temp, h1, _) =>
      ARes.ok (moveAssign C h1 a temp).1
        (proxyDtor C (moveAssign C h1 a temp).2.2
          (moveAssign C h1 a temp).2.1)
  else ARes.invalid

/-- The move assignment `operator=(proxy&& rhs)` evaluated with
`&rhs == this`: the `this != &rhs` guard (src line 451) fails, so the object
is left untouched. -/
def moveAssignSelf {V : Type} (_C : proxiable_ptr_constraints) (h : Heap V)
    (a : PState V) : PState V × Heap V := (a, h)

/-- C10: self-assignment is an observable no-op. For every well-formed proxy
state `a`, engaged or empty, move self-assignment leaves `a` and the heap
untouched, and copy self-assignment never reaches an invalid state; if it
throws, `a` and the heap are exactly as before, and if it completes, the
resulting state has the same engagement (same table pointer) and observes
the same held value as before. -/
theorem selfAssign_noop {V : Type} (C : proxiable_ptr_constraints)
    (h : Heap V) (a : PState V) (ok : Bool)
    (hca : HasCopyAssignment C = true) (_hw : wfState C a = true) :
    moveAssignSelf C h a = (a, h) ∧
    copyAssignSelf C h a ok ≠ ARes.invalid ∧
    (∀ t2 h2, copyAssignSelf C h a ok = ARes.threw t2 h2 →
      t2 = a ∧ h2 = h) ∧
    (∀ t2 h2, copyAssignSelf C h a ok = ARes.ok t2 h2 →
      t2.meta_ = a.meta_ ∧ heldValue h2 t2 = heldValue h a) := by
  refine ⟨rfl, ?_, ?_, ?_⟩
  · by_cases h1 : HasTrivialCopyAssignment C = true
    · simp [copyAssignSelf, h1]
    · by_cases h2 : HasNothrowCopyAssignment C = true
      · simp [copyAssignSelf, h1, h2]
      · rcases hcc : copyCtor C h a ok with _ | ⟨temp, hh1, u⟩ <;>
          simp [copyAssignSelf, h1, h2, hca, hcc]
  · intro t2 h2 hth
    by_cases h1 : HasTrivialCopyAssignment C = true
    · simp [copyAssignSelf, h1] at hth
    · by_cases h2c : HasNothrowCopyAssignment C = true
      · simp [copyAssignSelf, h1, h2c] at hth
      · rcases hcc : copyCtor C h a ok with _ | ⟨temp, hh1, u⟩
        · simp [copyAssignSelf, h1, h2c, hca, hcc] at hth
          exact ⟨hth.1.symm, hth.2.symm⟩
        · simp [copyAssignSelf, h1, h2c, hca, hcc] at hth
  · intro t2 h2 hok
    by_cases h1 : HasTrivialCopyAssignment C = true
    · simp [copyAssignSelf, h1] at hok
      obtain ⟨ht2, hh2⟩ := hok
      subst hh2
      exact ⟨by rw [← ht2], by rw [← ht2]⟩
    · by_cases h2c : HasNothrowCopyAssignment C = true
      · simp [copyAssignSelf, h1, h2c] at hok
        obtain ⟨ht2, hh2⟩ := hok
        subst hh2
        exact ⟨by rw [← ht2], by rw [← ht2]⟩
      · rcases hcc : copyCtor C h a ok with _ | ⟨temp, hh1, u⟩
        · simp [copyAssignSelf, h1, h2c, hca, hcc] at hok
        · have hprops := copyCtor_props C h a ok temp hh1 u hcc
          simp [copyAssignSelf, h1, h2c, hca, hcc, moveAssign] at hok
          obtain ⟨ht2, hh2⟩ := hok
          have hmeta : t2.meta_ = a.meta_ := by
            rw [← ht2, moveCtor_fst]; exact hprops.1
          refine ⟨hmeta, ?_⟩
          have hmem : h2.mem = hh1.mem := by
            rw [← hh2, proxyDtor_mem, proxyDtor_mem]
          calc heldValue h2 t2
              = heldValue hh1 t2 := heldValue_mem_congr hh1 h2 t2 hmem
            _ = heldValue hh1 temp := by rw [← ht2, moveCtor_fst]
            _ = heldValue h a := hprops.2.1

/-- Witness for C10 at `copyable_ptr_constraints` and the concrete engaged
proxy `demoSbo7`: move self-assignment is the identity and copy
self-assignment does not reach an invalid state. -/
theorem selfAssign_noop_witness :
    moveAssignSelf copyable_ptr_constraints demoHeap demoSbo7 =
      (demoSbo7, demoHeap) ∧
    copyAssignSelf copyable_ptr_constraints demoHeap demoSbo7 true ≠
      ARes.invalid :=
  ⟨(selfAssign_noop copyable_ptr_constraints demoHeap demoSbo7 true
      (by decide) (by decide)).1,
   (selfAssign_noop copyable_ptr_constraints demoHeap demoSbo7 true
      (by decide) (by decide)).2.1⟩

/-! ### The indirect holder `deep_ptr<T>` (src lines 575-590) on its own -/

/-- The state of one `deep_ptr<T>` object: its owning pointer `ptr_`, null
when disengaged. -/
structure deep_ptr where
  ptr_ : Option Nat
deriving DecidableEq, Repr

/-- Constructor `deep_ptr(Args&&...)` (src lines 578-580): allocates a block
and initializes it with the value. -/
def deep_ptr_ctor {V : Type} (h : Heap V) (v : V) : deep_ptr × Heap V :=
  (⟨Option.some (h.alloc v).1⟩, (h.alloc v).2)

/-- Copy constructor `deep_ptr(const deep_ptr& rhs)` (src lines 581-582):
a null source yields a null handle, an engaged source allocates a new block
and copies the pointed-to value into it. -/
def deep_ptr_copy {V : Type} (h : Heap V) (rhs : deep_ptr) :
    deep_ptr × Heap V :=
  match rhs.ptr_ with
  | Option.none => (⟨Option.none⟩, h)
  | Option.some a =>
    (⟨Option.some (h.alloc (h.mem a)).1⟩, (h.alloc (h.mem a)).2)

/-- Move constructor `deep_ptr(deep_ptr&& rhs)` (src line 583): transfers the
pointer and nulls the source. Result: (new object, source after). -/
def deep_ptr_move (rhs : deep_ptr) : deep_ptr × deep_ptr :=
  (⟨rhs.ptr_⟩, ⟨Option.none⟩)

/-- Destructor `~deep_ptr()` (src line 584): `delete ptr_` — releases the
block when engaged, a no-op on a null handle. -/
def deep_ptr_dtor {V : Type} (h : Heap V) (p : deep_ptr) : Heap V :=
  match p.ptr_ with
  | Option.none => h
  | Option.some a => h.free a

/-- C9: the indirect holder gives copy independence. Copying an engaged
`deep_ptr` allocates a block at a distinct address (the bump address, which
differs from every live address) and copies the held value into it, leaving
the source block intact and both blocks live with equal contents; copying a
disengaged `deep_ptr` produces a disengaged one without touching the heap;
moving transfers block ownership and disengages the source; destroying an
engaged `deep_ptr` releases its block. -/
theorem deep_ptr_independence {V : Type} (h : Heap V) (p : deep_ptr)
    (a : Nat) (hwf : h.wf) (hp : p.ptr_ = Option.some a)
    (hl : h.live a = true) :
    ((deep_ptr_copy h p).1.ptr_ = Option.some h.next ∧
     h.next ≠ a ∧
     (deep_ptr_copy h p).2.mem h.next = h.mem a ∧
     (deep_ptr_copy h p).2.mem a = h.mem a ∧
     (deep_ptr_copy h p).2.live h.next = true ∧
     (deep_ptr_copy h p).2.live a = true) ∧
    (∀ q : deep_ptr, q.ptr_ = Option.none →
      deep_ptr_copy h q = (⟨Option.none⟩, h)) ∧
    ((deep_ptr_move p).1.ptr_ = Option.some a ∧
     (deep_ptr_move p).2.ptr_ = Option.none) ∧
    (deep_ptr_dtor h p).live a = false := by
  have hne : a ≠ h.next := Nat.ne_of_lt (hwf a hl)
  refine ⟨⟨?_, fun he => hne he.symm, ?_, ?_, ?_, ?_⟩, ?_, ⟨?_, rfl⟩, ?_⟩
  · simp [deep_ptr_copy, hp, Heap.alloc]
  · simp [deep_ptr_copy, hp, Heap.alloc]
  · simp [deep_ptr_copy, hp, Heap.alloc, hne]
  · simp [deep_ptr_copy, hp, Heap.alloc]
  · simp [deep_ptr_copy, hp, Heap.alloc, hne, hl]
  · intro q hq; simp [deep_ptr_copy, hq]
  · simp [deep_ptr_move, hp]
  · simp [deep_ptr_dtor, hp, Heap.free]

/-- Helper: the concrete heap `demoHeap` is well-formed. -/
theorem demoHeap_wf : demoHeap.wf := by
  intro x hx
  simp [demoHeap] at hx ⊢
  omega

/-- Witness for C9 at the concrete heap `demoHeap` and a `deep_ptr` owning
its only live block (address 0, holding 5): the copy lands at the distinct
fresh address 1 with equal contents. -/
theorem deep_ptr_independence_witness :
    (deep_ptr_copy demoHeap ⟨Option.some 0⟩).1.ptr_ =
      Option.some demoHeap.next ∧
    demoHeap.next ≠ 0 ∧
    (deep_ptr_copy demoHeap ⟨Option.some 0⟩).2.mem demoHeap.next =
      demoHeap.mem 0 :=
  ⟨(deep_ptr_independence demoHeap ⟨Option.some 0⟩ 0 demoHeap_wf rfl
      (by decide)).1.1,
   (deep_ptr_independence demoHeap ⟨Option.some 0⟩ 0 demoHeap_wf rfl
      (by decide)).1.2.1,
   (deep_ptr_independence demoHeap ⟨Option.some 0⟩ 0 demoHeap_wf rfl
      (by decide)).1.2.2.1⟩

/-! ### Object size of `proxy<F>` (C8) -/

/-- Round `n` up to the next multiple of `a`. -/
def roundUp (n a : Nat) : Nat := ((n + a - 1) / a) * a

/-- Object size of the class `proxy<F>` from its member declarations (src
lines 551-552): a pointer member `const meta* meta_` followed by the buffer
member `alignas(max_align) char ptr_[max_size]`, laid out by the usual C++
rule — the buffer starts at the pointer's size rounded up to the buffer's
alignment, and the object size is the end of the buffer rounded up to the
object's alignment (the larger of the pointer alignment and `max_align`). -/
def proxy_sizeof (C : proxiable_ptr_constraints) : Nat :=
  roundUp (roundUp ptr_size C.max_align + C.max_size)
    (max ptr_size C.max_align)

/-- Object size of a `proxy<F>` whose buffer currently stores the holder
`P`. The member list of `proxy` (src lines 551-552) mentions only
`F::constraints`; the stored type is not an input to the layout, so this is
`proxy_sizeof` of the constraints, whatever `P` is. -/
def proxy_sizeof_stored (C : proxiable_ptr_constraints) (_P : Candidate) :
    Nat :=
  proxy_sizeof C

/-- Type-trait description of `sbo_ptr<T>` (src lines 557-573): a single
member `mutable T value_`, so size, alignment and the lifetime traits are
those of `T` (its special members are defaulted), and it has `operator->`
(src line 569). -/
def sbo_ptr_candidate (T : Candidate) : Candidate := { T with ptr_ok := true }

/-- Type-trait description of `deep_ptr<T>` (src lines 575-590): a single
raw-pointer member, so pointer size and alignment; copy-constructible iff
`T` is (src line 581), never nothrow or trivially (its copy allocates);
nothrow move-constructible (src line 583) but not trivially (user-provided);
nothrow destructible (src line 584) but not trivially; has `operator->` (src
line 586). -/
def deep_ptr_candidate (T : Candidate) : Candidate :=
  { size := ptr_size, align := ptr_size
    copy_c := T.copy_c, copy_nt := false, copy_tv := false
    move_c := true, move_nt := true, move_tv := false
    dtor_c := true, dtor_nt := true, dtor_tv := false
    ptr_ok := true }

/-- The holder `make_proxy_impl` selects (src lines 592-597):
`sbo_ptr<T>` when it is proxiable for `F`, else `deep_ptr<T>`. -/
def choose_holder (F : Facade) (T : Candidate) : Candidate :=
  if proxiable (sbo_ptr_candidate T) F then sbo_ptr_candidate T
  else deep_ptr_candidate T

/-- Helper: admissibility bounds the holder by the facade's buffer size and
alignment, and entails the facade's own well-formedness. -/
theorem proxiable_bounds (F : Facade) (P : Candidate)
    (hp : proxiable P F = true) :
    P.size ≤ F.constraints.max_size ∧ P.align ≤ F.constraints.max_align ∧
    facadeOk F = true := by
  unfold proxiable applicable_ptr at hp
  simp only [Bool.and_eq_true, decide_eq_true_eq] at hp
  exact ⟨hp.2.1.1.1.1.1.1, hp.2.1.1.1.1.1.2, hp.1.1⟩

/-- Helper: a number is at most its rounding up to a positive multiple. -/
theorem le_roundUp (n a : Nat) (ha : 0 < a) : n ≤ roundUp n a := by
  unfold roundUp
  rw [Nat.mul_comm]
  have h1 := Nat.div_add_mod (n + a - 1) a
  have h2 : (n + a - 1) % a < a := Nat.mod_lt _ ha
  generalize a * ((n + a - 1) / a) = t at h1 ⊢
  generalize (n + a - 1) % a = r at h1 h2
  omega

/-- Helper: a well-formed facade has positive buffer alignment. -/
theorem max_align_pos (F : Facade) (hf : facadeOk F = true) :
    0 < F.constraints.max_align := by
  unfold facadeOk has_single_bit at hf
  simp only [Bool.and_eq_true, bne_iff_ne, ne_eq] at hf
  exact Nat.pos_of_ne_zero hf.1.1.1

/-- C8: for every facade `F`, the object size of `proxy<F>` is a constant
determined by `F` alone — whatever concrete types are stored, and whether
`make_proxy` selects the embedded or the indirect holder for them, the size
is the same; moreover each selected holder fits the facade's buffer (its
size and alignment are within `max_size` and `max_align`), and the object is
large enough for the inline buffer of exactly `max_size` bytes plus one
table pointer. -/
theorem proxy_sizeof_invariant (F : Facade) (T U : Candidate)
    (hT : proxiable (choose_holder F T) F = true)
    (hU : proxiable (choose_holder F U) F = true) :
    proxy_sizeof_stored F.constraints (choose_holder F T) =
      proxy_sizeof_stored F.constraints (choose_holder F U) ∧
    (choose_holder F T).size ≤ F.constraints.max_size ∧
    (choose_holder F T).align ≤ F.constraints.max_align ∧
    (choose_holder F U).size ≤ F.constraints.max_size ∧
    (choose_holder F U).align ≤ F.constraints.max_align ∧
    F.constraints.max_size + ptr_size ≤ proxy_sizeof F.constraints := by
  obtain ⟨hTs, hTa, hf⟩ := proxiable_bounds F _ hT
  obtain ⟨hUs, hUa, -⟩ := proxiable_bounds F _ hU
  refine ⟨rfl, hTs, hTa, hUs, hUa, ?_⟩
  have hpos := max_align_pos F hf
  have h1 : ptr_size ≤ roundUp ptr_size F.constraints.max_align :=
    le_roundUp _ _ hpos
  have h2 := le_roundUp
    (roundUp ptr_size F.constraints.max_align + F.constraints.max_size)
    (max ptr_size F.constraints.max_align)
    (Nat.lt_of_lt_of_le (by decide) (Nat.le_max_left ptr_size _))
  unfold proxy_sizeof
  omega

/-- Witness for C8 at the concrete facade `demoFacade` and two concrete
stored types (`unitCandidate`, which fits inline, and a large candidate that
does not): the object size is the same and the selected holders fit. -/
theorem proxy_sizeof_invariant_witness :
    proxy_sizeof_stored demoFacade.constraints
        (choose_holder demoFacade unitCandidate) =
      proxy_sizeof_stored demoFacade.constraints
        (choose_holder demoFacade
          { unitCandidate with size := 100, align := 8 }) ∧
    (choose_holder demoFacade unitCandidate).size ≤
      demoFacade.constraints.max_size :=
  ⟨(proxy_sizeof_invariant demoFacade unitCandidate
      { unitCandidate with size := 100, align := 8 } (by decide)
      (by decide)).1,
   (proxy_sizeof_invariant demoFacade unitCandidate
      { unitCandidate with size := 100, align := 8 } (by decide)
      (by decide)).2.1⟩

end Pro
